import Mathlib

/-!
Verification of the stock-analysis engine (backend/services) against its
natural-language specification.

The Python code computes over IEEE floats; the embedding uses exact rationals
(`ℚ`).  A float that may be `NaN` is modelled as `Option ℚ` with `none` for
`NaN`: the ewm/rolling-based `ta` indicators (EMA, RSI, MACD, SMA) are built
with `min_periods = window`, so pandas emits `NaN` at positions whose window
is not yet filled; as in IEEE arithmetic, every ordered comparison against
`NaN` is false.  ta's ATR and ADX are numpy-loop implementations that do not
emit warm-up NaN but instead raise on short frames; those raising paths are
modelled as failure of the whole indicator call (see `calculate_atr`,
`calculate_adx`, `calculate_all_indicators`).
Python's `round(x, 2)` is modelled as exact decimal rounding; no computation
in this development evaluates `round` at a tie, so the tie-breaking rule is
immaterial.
-/

attribute [local semireducible] Rat.add Rat.sub Rat.mul Rat.inv

/-- Comparison `a < b` on possibly-NaN floats: false when either side is NaN
(mirrors IEEE semantics used by the Python comparisons). -/
def oLt (a b : Option ℚ) : Bool :=
  match a, b with
  | some x, some y => decide (x < y)
  | _, _ => false

/-- Comparison `a ≤ b` on possibly-NaN floats: false when either side is NaN. -/
def oLe (a b : Option ℚ) : Bool :=
  match a, b with
  | some x, some y => decide (x ≤ y)
  | _, _ => false

/-- Model of Python `round(x, 2)` (round to two decimal places). -/
def round2 (q : ℚ) : ℚ := (round (q * 100) : ℤ) / 100

/-- Does the string start with the three characters `rs_`?  (Stated over the
character list so that the kernel can evaluate it.) -/
def isRSKey (s : String) : Bool := s.data.take 3 = ['r', 's', '_']

/-- The two fields of the relative-strength dict that the scoring engine reads
(`rs.get("is_new_high")` and `rs.get("trend")` in `scoring.py`). -/
structure RSIn where
  is_new_high : Bool
  trend : String
deriving DecidableEq

/-- Inputs of the rule evaluation in `calculate_strength_score`
(`scoring.py` lines 16-142): the indicator snapshot fields the rules read,
the optional relative-strength data, and the latest close price and volume.
`volRatio20` names the source's `volume_ratio` (latest volume over trailing
20-bar mean volume); it is always a real number in the source (the division
is guarded), hence plain `ℚ`. -/
structure ScoreInputs where
  rs : Option RSIn
  ema_10 : Option ℚ
  ema_20 : Option ℚ
  ema_50 : Option ℚ
  rsi : Option ℚ
  macd_is_bullish : Bool
  macd_histogram : Option ℚ
  adx : Option ℚ
  volRatio20 : ℚ
  sma_is_rising : Bool
  volatility : Option ℚ
  current_price : ℚ
  current_volume : ℚ
deriving DecidableEq

/-- Rule 1 of `calculate_strength_score`: relative strength vs NIFTY
(20 points).  When the benchmark data is unavailable (`nifty_df is None`)
the whole block is skipped: no points, no explanation entry. -/
def rule1 (rs : Option RSIn) : ℤ × List (String × String) :=
  match rs with
  | none => (0, [])
  | some r =>
    if r.is_new_high then (20, [("rs_new_high", "+20 (RS at new high vs NIFTY)")])
    else if r.trend = "Outperforming" then
      (12, [("rs_outperforming", "+12 (Outperforming NIFTY)")])
    else (0, [("rs_underperforming", "0 (Underperforming NIFTY)")])

/-- Rule 2: EMA alignment (15 points). -/
def rule2 (e10 e20 e50 : Option ℚ) : ℤ × List (String × String) :=
  if oLt e20 e10 && oLt e50 e20 then
    (15, [("ema_alignment", "+15 (Strong uptrend - EMA 10 > 20 > 50)")])
  else if oLt e20 e10 then (8, [("ema_partial", "+8 (Short-term uptrend)")])
  else (0, [("ema_weak", "0 (No clear uptrend)")])

/-- Rule 3: RSI zone (12 points). -/
def rule3 (rsi : Option ℚ) : ℤ × List (String × String) :=
  if oLe (some 55) rsi && oLe rsi (some 75) then
    (12, [("rsi_strong", "+12 (RSI in strong zone 55-75)")])
  else if oLe (some 45) rsi && oLt rsi (some 55) then
    (6, [("rsi_moderate", "+6 (RSI neutral)")])
  else if oLt (some 80) rsi then (0, [("rsi_overbought", "0 (RSI overbought - caution)")])
  else (0, [("rsi_weak", "0 (RSI weak)")])

/-- Rule 4: MACD momentum (10 points). -/
def rule4 (bullish : Bool) (hist : Option ℚ) : ℤ × List (String × String) :=
  if bullish && oLt (some 0) hist then
    (10, [("macd_bullish", "+10 (MACD bullish crossover)")])
  else if bullish then (5, [("macd_positive", "+5 (MACD above signal)")])
  else (0, [("macd_bearish", "0 (MACD bearish)")])

/-- Rule 5: ADX trend strength (10 points). -/
def rule5 (adx : Option ℚ) : ℤ × List (String × String) :=
  if oLe (some 25) adx then (10, [("adx_strong", "+10 (Strong trend - ADX ≥ 25)")])
  else if oLe (some 20) adx then (5, [("adx_moderate", "+5 (Moderate trend)")])
  else (0, [("adx_weak", "0 (Weak trend)")])

/-- Rule 6: volume confirmation (8 points). -/
def rule6 (vr : ℚ) : ℤ × List (String × String) :=
  if (3 / 2 : ℚ) < vr then (8, [("volume_high", "+8 (High volume confirmation)")])
  else if 1 < vr then (4, [("volume_moderate", "+4 (Above average volume)")])
  else (0, [("volume_low", "0 (Low volume)")])

/-- Rule 7: SMA-50 rising (8 points). -/
def rule7 (rising : Bool) : ℤ × List (String × String) :=
  if rising then (8, [("sma_rising", "+8 (50-SMA rising)")])
  else (0, [("sma_falling", "0 (50-SMA not rising)")])

/-- Rule 8's explanation entry (the penalty itself is applied by
`scoreAfterRule8`, mirroring the in-place `score = max(0, score + penalty)`
of the source). -/
def rule8 (vol : Option ℚ) : ℤ × List (String × String) :=
  if oLt (some 50) vol then (-10, [("volatility_high", "-10 (High volatility penalty)")])
  else if oLt (some 35) vol then
    (-5, [("volatility_moderate", "-5 (Moderate volatility penalty)")])
  else (0, [("volatility_low", "+0 (Acceptable volatility)")])

/-- Rule 9: price above EMAs (7 points). -/
def rule9 (price : ℚ) (e20 e50 : Option ℚ) : ℤ × List (String × String) :=
  if oLt e50 (some price) then (7, [("price_above_ema", "+7 (Price > 50 EMA)")])
  else if oLt e20 (some price) then (3, [("price_above_ema", "+3 (Price > 20 EMA)")])
  else (0, [("price_below_ema", "0 (Price below key EMAs)")])

/-- Rule 10: liquidity = price × volume (10 points). -/
def rule10 (price volume : ℚ) : ℤ × List (String × String) :=
  if (10000000 : ℚ) < price * volume then (10, [("liquidity", "+10 (High liquidity)")])
  else if (5000000 : ℚ) < price * volume then (5, [("liquidity", "+5 (Moderate liquidity)")])
  else (0, [("liquidity", "0 (Low liquidity)")])

/-- Running total of `score` in `calculate_strength_score` after rule 1. -/
def scoreAfterRule1 (inp : ScoreInputs) : ℤ := (rule1 inp.rs).1

/-- Running total after rule 2. -/
def scoreAfterRule2 (inp : ScoreInputs) : ℤ :=
  scoreAfterRule1 inp + (rule2 inp.ema_10 inp.ema_20 inp.ema_50).1

/-- Running total after rule 3. -/
def scoreAfterRule3 (inp : ScoreInputs) : ℤ := scoreAfterRule2 inp + (rule3 inp.rsi).1

/-- Running total after rule 4. -/
def scoreAfterRule4 (inp : ScoreInputs) : ℤ :=
  scoreAfterRule3 inp + (rule4 inp.macd_is_bullish inp.macd_histogram).1

/-- Running total after rule 5. -/
def scoreAfterRule5 (inp : ScoreInputs) : ℤ := scoreAfterRule4 inp + (rule5 inp.adx).1

/-- Running total after rule 6. -/
def scoreAfterRule6 (inp : ScoreInputs) : ℤ := scoreAfterRule5 inp + (rule6 inp.volRatio20).1

/-- Running total after rule 7. -/
def scoreAfterRule7 (inp : ScoreInputs) : ℤ :=
  scoreAfterRule6 inp + (rule7 inp.sma_is_rising).1

/-- Running total after rule 8, mirroring the source's
`score = max(0, score + penalty)` inside each penalty branch
(`scoring.py` lines 96-107). -/
def scoreAfterRule8 (inp : ScoreInputs) : ℤ :=
  if oLt (some 50) inp.volatility then max 0 (scoreAfterRule7 inp + (-10))
  else if oLt (some 35) inp.volatility then max 0 (scoreAfterRule7 inp + (-5))
  else scoreAfterRule7 inp

/-- The accumulated `score` after all ten rules, before the final
`min(100, score)` cap. -/
def rawScore (inp : ScoreInputs) : ℤ :=
  scoreAfterRule8 inp + (rule9 inp.current_price inp.ema_20 inp.ema_50).1 +
    (rule10 inp.current_price inp.current_volume).1

/-- Result of `calculate_strength_score` (`scoring.py`): the capped score, the
trend label, and the ordered explanation mapping (a Python dict with insertion
order, modelled as an association list; all keys are distinct within one
call).  The echoed `symbol`, rounded indicator snapshot and `timestamp`
fields of the source's return dict carry no scored content and are omitted. -/
structure ScoreResult where
  strength_score : ℤ
  trend : String
  explanation : List (String × String)
deriving DecidableEq, Inhabited

/-- The rule-evaluation core of `calculate_strength_score`
(`scoring.py` lines 16-142). -/
def calculate_strength_score (inp : ScoreInputs) : ScoreResult :=
  { strength_score := min 100 (rawScore inp)
    trend :=
      if 70 ≤ rawScore inp then "Bullish"
      else if 40 ≤ rawScore inp then "Neutral"
      else "Weak"
    explanation :=
      (rule1 inp.rs).2 ++ (rule2 inp.ema_10 inp.ema_20 inp.ema_50).2 ++
        (rule3 inp.rsi).2 ++ (rule4 inp.macd_is_bullish inp.macd_histogram).2 ++
        (rule5 inp.adx).2 ++ (rule6 inp.volRatio20).2 ++ (rule7 inp.sma_is_rising).2 ++
        (rule8 inp.volatility).2 ++ (rule9 inp.current_price inp.ema_20 inp.ema_50).2 ++
        (rule10 inp.current_price inp.current_volume).2 }

lemma rule1_bounds (rs : Option RSIn) : 0 ≤ (rule1 rs).1 ∧ (rule1 rs).1 ≤ 20 := by
  cases rs with
  | none => simp [rule1]
  | some r => simp only [rule1]; split_ifs <;> simp

lemma rule2_bounds (a b c : Option ℚ) : 0 ≤ (rule2 a b c).1 ∧ (rule2 a b c).1 ≤ 15 := by
  simp only [rule2]; split_ifs <;> simp

lemma rule3_bounds (r : Option ℚ) : 0 ≤ (rule3 r).1 ∧ (rule3 r).1 ≤ 12 := by
  simp only [rule3]; split_ifs <;> simp

lemma rule4_bounds (b : Bool) (h : Option ℚ) : 0 ≤ (rule4 b h).1 ∧ (rule4 b h).1 ≤ 10 := by
  simp only [rule4]; split_ifs <;> simp

lemma rule5_bounds (a : Option ℚ) : 0 ≤ (rule5 a).1 ∧ (rule5 a).1 ≤ 10 := by
  simp only [rule5]; split_ifs <;> simp

lemma rule6_bounds (v : ℚ) : 0 ≤ (rule6 v).1 ∧ (rule6 v).1 ≤ 8 := by
  simp only [rule6]; split_ifs <;> simp

lemma rule7_bounds (b : Bool) : 0 ≤ (rule7 b).1 ∧ (rule7 b).1 ≤ 8 := by
  simp only [rule7]; split_ifs <;> simp

lemma rule9_bounds (p : ℚ) (a b : Option ℚ) :
    0 ≤ (rule9 p a b).1 ∧ (rule9 p a b).1 ≤ 7 := by
  simp only [rule9]; split_ifs <;> simp

lemma rule10_bounds (p v : ℚ) : 0 ≤ (rule10 p v).1 ∧ (rule10 p v).1 ≤ 10 := by
  simp only [rule10]; split_ifs <;> simp

lemma scoreAfterRule7_bounds (inp : ScoreInputs) :
    0 ≤ scoreAfterRule7 inp ∧ scoreAfterRule7 inp ≤ 83 := by
  have h1 := rule1_bounds inp.rs
  have h2 := rule2_bounds inp.ema_10 inp.ema_20 inp.ema_50
  have h3 := rule3_bounds inp.rsi
  have h4 := rule4_bounds inp.macd_is_bullish inp.macd_histogram
  have h5 := rule5_bounds inp.adx
  have h6 := rule6_bounds inp.volRatio20
  have h7 := rule7_bounds inp.sma_is_rising
  unfold scoreAfterRule7 scoreAfterRule6 scoreAfterRule5 scoreAfterRule4
    scoreAfterRule3 scoreAfterRule2 scoreAfterRule1
  omega

lemma scoreAfterRule8_bounds (inp : ScoreInputs) :
    0 ≤ scoreAfterRule8 inp ∧ scoreAfterRule8 inp ≤ 83 := by
  have h7 := scoreAfterRule7_bounds inp
  unfold scoreAfterRule8
  split_ifs <;> omega

lemma rawScore_bounds (inp : ScoreInputs) : 0 ≤ rawScore inp ∧ rawScore inp ≤ 100 := by
  have h8 := scoreAfterRule8_bounds inp
  have h9 := rule9_bounds inp.current_price inp.ema_20 inp.ema_50
  have h10 := rule10_bounds inp.current_price inp.current_volume
  unfold rawScore
  omega

lemma strength_score_in_range_inputs (inp : ScoreInputs) :
    0 ≤ (calculate_strength_score inp).strength_score ∧
      (calculate_strength_score inp).strength_score ≤ 100 := by
  have h := rawScore_bounds inp
  simp only [calculate_strength_score]
  constructor
  · exact le_min (by norm_num) h.1
  · exact min_le_left _ _

/-- C5: the running total immediately after rule 8's volatility penalty is
floored at 0 (never negative), and rules 9 and 10 add their points to this
floored subtotal before the final cap at 100 is applied. -/
theorem C5_floor_after_rule8 (inp : ScoreInputs) :
    0 ≤ scoreAfterRule8 inp ∧
      (calculate_strength_score inp).strength_score =
        min 100 (scoreAfterRule8 inp + (rule9 inp.current_price inp.ema_20 inp.ema_50).1 +
          (rule10 inp.current_price inp.current_volume).1) := by
  refine ⟨(scoreAfterRule8_bounds inp).1, ?_⟩
  simp only [calculate_strength_score, rawScore]

/-- C9: the raw accumulated score before the final `min(100, ·)` cap never
exceeds 100 (the rules' maximum tiers sum to exactly 100 and the penalty can
only lower the subtotal), hence the final cap never changes the returned
value. -/
theorem C9_cap_never_binds (inp : ScoreInputs) :
    rawScore inp ≤ 100 ∧
      (calculate_strength_score inp).strength_score = rawScore inp := by
  have h := rawScore_bounds inp
  refine ⟨h.2, ?_⟩
  simp only [calculate_strength_score]
  exact min_eq_right h.2

lemma rule2_no_rs_key (a b c : Option ℚ) :
    ((rule2 a b c).2.all fun kv => !(isRSKey kv.1)) = true := by
  simp only [rule2]; split_ifs <;> decide

lemma rule3_no_rs_key (r : Option ℚ) :
    ((rule3 r).2.all fun kv => !(isRSKey kv.1)) = true := by
  simp only [rule3]; split_ifs <;> decide

lemma rule4_no_rs_key (b : Bool) (h : Option ℚ) :
    ((rule4 b h).2.all fun kv => !(isRSKey kv.1)) = true := by
  simp only [rule4]; split_ifs <;> decide

lemma rule5_no_rs_key (a : Option ℚ) :
    ((rule5 a).2.all fun kv => !(isRSKey kv.1)) = true := by
  simp only [rule5]; split_ifs <;> decide

lemma rule6_no_rs_key (v : ℚ) :
    ((rule6 v).2.all fun kv => !(isRSKey kv.1)) = true := by
  simp only [rule6]; split_ifs <;> decide

lemma rule7_no_rs_key (b : Bool) :
    ((rule7 b).2.all fun kv => !(isRSKey kv.1)) = true := by
  simp only [rule7]; split_ifs <;> decide

lemma rule8_no_rs_key (v : Option ℚ) :
    ((rule8 v).2.all fun kv => !(isRSKey kv.1)) = true := by
  simp only [rule8]; split_ifs <;> decide

lemma rule9_no_rs_key (p : ℚ) (a b : Option ℚ) :
    ((rule9 p a b).2.all fun kv => !(isRSKey kv.1)) = true := by
  simp only [rule9]; split_ifs <;> decide

lemma rule10_no_rs_key (p v : ℚ) :
    ((rule10 p v).2.all fun kv => !(isRSKey kv.1)) = true := by
  simp only [rule10]; split_ifs <;> decide

/-- C6: when benchmark data is unavailable (`rs = none`), rule 1 is skipped
entirely: the explanation mapping has no key starting with `rs_`, and the
running total after rule 1 is 0 (rule 1 contributes no points). -/
theorem C6_rs_rule_skipped (inp : ScoreInputs) :
    ((calculate_strength_score { inp with rs := none }).explanation.all
        fun kv => !(isRSKey kv.1)) = true ∧
      scoreAfterRule1 { inp with rs := none } = 0 := by
  constructor
  · simp only [calculate_strength_score, rule1, List.all_append, Bool.and_eq_true,
      List.all_nil]
    exact ⟨⟨⟨⟨⟨⟨⟨⟨⟨trivial, rule2_no_rs_key _ _ _⟩, rule3_no_rs_key _⟩,
      rule4_no_rs_key _ _⟩, rule5_no_rs_key _⟩, rule6_no_rs_key _⟩,
      rule7_no_rs_key _⟩, rule8_no_rs_key _⟩, rule9_no_rs_key _ _ _⟩,
      rule10_no_rs_key _ _⟩
  · rfl

/-!
Relative Strength Calculator (`relative_strength.py`).  A price series is a
list of `(date, close)` pairs, dates ascending (the data model of the spec);
`calculate_relative_strength` first restricts both series to their common
dates (`stock_df.index.intersection(nifty_df.index)` followed by `.loc`),
then works on the ratio of the aligned close columns.
-/

/-- The common dates of two series, in the stock series' (ascending) order:
models `stock_df.index.intersection(nifty_df.index)`. -/
def commonDates (stock nifty : List (ℕ × ℚ)) : List ℕ :=
  (stock.map Prod.fst).filter fun d => (nifty.map Prod.fst).contains d

/-- Close value of a series at a date (`df.loc[date]['Close']`); dates are
unique within a series, so the first match is the value. -/
def closeAt (xs : List (ℕ × ℚ)) (d : ℕ) : ℚ :=
  ((xs.find? fun p => p.1 = d).map Prod.snd).getD 0

/-- The aligned close column of `xs` over the given dates. -/
def alignedCloses (xs : List (ℕ × ℚ)) (dates : List ℕ) : List ℚ :=
  dates.map (closeAt xs)

/-- `rs_ratio = stock_aligned / nifty_aligned` (elementwise). -/
def rsRatio (stock nifty : List (ℕ × ℚ)) : List ℚ :=
  List.zipWith (· / ·) (alignedCloses stock (commonDates stock nifty))
    (alignedCloses nifty (commonDates stock nifty))

/-- `rs_normalized = (rs_ratio / rs_ratio.iloc[0]) * 100`. -/
def rsNormalized (stock nifty : List (ℕ × ℚ)) : List ℚ :=
  (rsRatio stock nifty).map fun x => x / (rsRatio stock nifty).headD 0 * 100

/-- `current_rs = float(rs_normalized.iloc[-1])` (unrounded value used by the
comparisons; rounding happens only in the returned dict). -/
def currentRS (stock nifty : List (ℕ × ℚ)) : ℚ :=
  (rsNormalized stock nifty).getLast?.getD 0

/-- `max_rs = float(rs_normalized.max())`. -/
def maxRS (stock nifty : List (ℕ × ℚ)) : ℚ :=
  (rsNormalized stock nifty).max?.getD 0

/-- `is_new_high = current_rs >= (max_rs * 0.98)`. -/
def isNewHighOf (stock nifty : List (ℕ × ℚ)) : Bool :=
  decide (currentRS stock nifty ≥ maxRS stock nifty * (98 / 100))

/-- `rs_20_days_ago = float(rs_normalized.iloc[-20]) if len(rs_normalized) > 20
else current_rs`: the 20th entry from the end, i.e. index `len - 20`. -/
def rs20DaysAgo (stock nifty : List (ℕ × ℚ)) : ℚ :=
  if 20 < (rsNormalized stock nifty).length then
    (rsNormalized stock nifty).getD ((rsNormalized stock nifty).length - 20) 0
  else currentRS stock nifty

/-- `rs_trend = "Outperforming" if current_rs > rs_20_days_ago else
"Underperforming"`. -/
def rsTrendOf (stock nifty : List (ℕ × ℚ)) : String :=
  if currentRS stock nifty > rs20DaysAgo stock nifty then "Outperforming"
  else "Underperforming"

/-- Result dict of `calculate_relative_strength`. -/
structure RSResult where
  current_rs : ℚ
  max_rs : ℚ
  is_new_high : Bool
  trend : String
  vs_nifty_percent : ℚ
deriving DecidableEq, Inhabited

/-- `calculate_relative_strength` (`relative_strength.py` lines 5-34).
On an empty date intersection the Python code raises (`iloc[0]` of an empty
frame); that failure is modelled as `none`. -/
def calculate_relative_strength (stock nifty : List (ℕ × ℚ)) : Option RSResult :=
  if rsNormalized stock nifty = [] then none
  else some
    { current_rs := round2 (currentRS stock nifty)
      max_rs := round2 (maxRS stock nifty)
      is_new_high := isNewHighOf stock nifty
      trend := rsTrendOf stock nifty
      vs_nifty_percent := round2 ((currentRS stock nifty / 100 - 1) * 100) }

/-- A 21-point pair of series on which the stock steadily outperforms the
benchmark: witness data for the trend rule. -/
def rsStockW21 : List (ℕ × ℚ) := (List.range 21).map fun i => (i, 100 + i)

/-- Constant benchmark for `rsStockW21`. -/
def rsNiftyW21 : List (ℕ × ℚ) := (List.range 21).map fun i => (i, 100)

/-- A 2-point pair of series on which the stock doubles against the
benchmark, yet the trend comes out "Underperforming" because the
fewer-than-21-points fallback compares the current value with itself. -/
def rsStockShort : List (ℕ × ℚ) := [(0, 100), (1, 200)]

/-- Constant benchmark for `rsStockShort`. -/
def rsNiftyShort : List (ℕ × ℚ) := [(0, 100), (1, 100)]

/-- C4 counterexample: the claim says the fewer-than-21-points fallback
"forces Underperforming to never fire spuriously".  On a 2-point
intersection where the stock outperforms (normalized RS rises from 100 to
200), the code still labels the trend "Underperforming" — with fewer than 21
points the fallback compares `current_rs` with itself, so the strict `>`
fails and "Underperforming" always fires. -/
theorem C4_counterexample :
    (rsNormalized rsStockShort rsNiftyShort).length = 2 ∧
      currentRS rsStockShort rsNiftyShort = 200 ∧
      rsTrendOf rsStockShort rsNiftyShort = "Underperforming" ∧
      ((calculate_relative_strength rsStockShort rsNiftyShort).map
          RSResult.trend).getD "" = "Underperforming" := by
  decide

/-- C4 (amended): over the aligned series, when the RS index has at least 21
points the trend is "Outperforming" exactly when `current_rs` exceeds the
20th-from-last RS value (index `len - 20`, i.e. the value 19 bars earlier);
when fewer than 21 points exist the comparison value falls back to the
current value itself, so the strict comparison fails and the trend is always
"Underperforming" (it is "Outperforming" that can never fire spuriously). -/
theorem C4_trend_rule (stock nifty : List (ℕ × ℚ)) :
    (20 < (rsNormalized stock nifty).length →
      (rsTrendOf stock nifty = "Outperforming" ↔
        currentRS stock nifty >
          (rsNormalized stock nifty).getD ((rsNormalized stock nifty).length - 20) 0)) ∧
      ((rsNormalized stock nifty).length ≤ 20 →
        rsTrendOf stock nifty = "Underperforming") := by
  constructor
  · intro h
    unfold rsTrendOf rs20DaysAgo
    rw [if_pos h]
    by_cases hc : currentRS stock nifty >
        (rsNormalized stock nifty).getD ((rsNormalized stock nifty).length - 20) 0
    · rw [if_pos hc]
      exact iff_of_true rfl hc
    · rw [if_neg hc]
      exact iff_of_false (by decide) hc
  · intro h
    unfold rsTrendOf rs20DaysAgo
    rw [if_neg (by omega : ¬ 20 < (rsNormalized stock nifty).length),
      if_neg (lt_irrefl (currentRS stock nifty))]

/-- C4 witness: on a concrete 21-point intersection with rising relative
strength the amended rule yields "Outperforming". -/
theorem C4_trend_rule_witness :
    rsTrendOf rsStockW21 rsNiftyW21 = "Outperforming" :=
  ((C4_trend_rule rsStockW21 rsNiftyW21).1 (by decide)).mpr (by decide)

/-- Three-point pair whose normalized RS path is `[100, 102, 99.96]`: the
final value is exactly `0.98` of the window maximum. -/
def rsStock098 : List (ℕ × ℚ) := [(0, 1), (1, 51 / 50), (2, 2499 / 2500)]

/-- Constant benchmark with dates matching `rsStock098`/`rsStock9799`. -/
def rsNifty3 : List (ℕ × ℚ) := [(0, 1), (1, 1), (2, 1)]

/-- Three-point pair whose normalized RS path is `[100, 102, 99.9498]`: the
final value is exactly `0.9799` of the window maximum. -/
def rsStock9799 : List (ℕ × ℚ) := [(0, 1), (1, 51 / 50), (2, 499749 / 500000)]

/-- C7: the relative-strength result's `is_new_high` is true exactly when
`current_rs ≥ 0.98 × max_rs`; in particular it is true on a window whose
final ratio `current_rs / max_rs` is exactly `0.98` and false on one where
it is exactly `0.9799`. -/
theorem C7_is_new_high (stock nifty : List (ℕ × ℚ)) (r : RSResult)
    (h : calculate_relative_strength stock nifty = some r) :
    (r.is_new_high = true ↔
        currentRS stock nifty ≥ 98 / 100 * maxRS stock nifty) ∧
      isNewHighOf rsStock098 rsNifty3 = true ∧
      currentRS rsStock098 rsNifty3 = 98 / 100 * maxRS rsStock098 rsNifty3 ∧
      isNewHighOf rsStock9799 rsNifty3 = false ∧
      currentRS rsStock9799 rsNifty3 = 9799 / 10000 * maxRS rsStock9799 rsNifty3 := by
  refine ⟨?_, by decide, by decide, by decide, by decide⟩
  have hr : r.is_new_high = isNewHighOf stock nifty := by
    unfold calculate_relative_strength at h
    split_ifs at h
    injection h with h'
    rw [← h']
  rw [hr]
  unfold isNewHighOf
  rw [decide_eq_true_eq, mul_comm]

/-- C7 witness: at the exact-0.98 boundary input the returned record's
`is_new_high` is true. -/
theorem C7_is_new_high_witness :
    ((calculate_relative_strength rsStock098 rsNifty3).getD default).is_new_high = true := by
  have hs : (calculate_relative_strength rsStock098 rsNifty3).isSome = true := by decide
  have h : calculate_relative_strength rsStock098 rsNifty3 =
      some ((calculate_relative_strength rsStock098 rsNifty3).getD default) := by
    cases hopt : calculate_relative_strength rsStock098 rsNifty3 with
    | none => rw [hopt] at hs; cases hs
    | some v => rfl
  have main := C7_is_new_high rsStock098 rsNifty3 _ h
  exact main.1.mpr (ge_of_eq main.2.2.1)

/-!
Indicator Calculator (`indicators.py`).  The repository calls the external
`ta` library; its indicator series are modelled from that library's
documented behaviour: every indicator is built with `min_periods = window`,
so positions with fewer than `window` observations are NaN (`none`).
-/

/-- Rolling mean with window `w` and `min_periods = w` (the `ta`
`SMAIndicator`): position `i` holds the mean of the `w` values ending at `i`,
or NaN while fewer than `w` values are available. -/
def rollingMean (w : ℕ) (xs : List ℚ) : List (Option ℚ) :=
  (List.range xs.length).map fun i =>
    if w ≤ i + 1 then some (((xs.take (i + 1)).drop (i + 1 - w)).sum / w) else none

/-- `sma_values = SMAIndicator(close, window=50).sma_indicator()`
(`indicators.py` line 52-53). -/
def smaSeries (closes : List ℚ) : List (Option ℚ) := rollingMean 50 closes

/-- `current_sma = float(sma_values.iloc[-1])` (`indicators.py` line 54). -/
def smaCurrent (closes : List ℚ) : Option ℚ := (smaSeries closes).getLast?.getD none

/-- `prev_sma = float(sma_values.iloc[-5]) if len(sma_values) > 5 else
current_sma` (`indicators.py` line 55): the 5th entry from the end, i.e.
index `len - 5`. -/
def smaPrev (closes : List ℚ) : Option ℚ :=
  if 5 < (smaSeries closes).length then
    (smaSeries closes).getD ((smaSeries closes).length - 5) none
  else smaCurrent closes

/-- `is_rising = current_sma > prev_sma` (`indicators.py` line 56). -/
def smaIsRising (closes : List ℚ) : Bool := oLt (smaPrev closes) (smaCurrent closes)

/-- Value/rising pair returned by `calculate_sma`. -/
structure SMAOut where
  value : Option ℚ
  is_rising : Bool
deriving DecidableEq

/-- `calculate_sma` (`indicators.py` lines 50-57). -/
def calculate_sma (closes : List ℚ) : SMAOut :=
  { value := smaCurrent closes, is_rising := smaIsRising closes }

lemma oLt_self (x : Option ℚ) : oLt x x = false := by
  cases x with
  | none => rfl
  | some q => simp [oLt]

lemma smaSeries_length (closes : List ℚ) : (smaSeries closes).length = closes.length := by
  simp [smaSeries, rollingMean]

/-- 55-bar close series: one high bar (200), then 53 bars at 100, then 101.
Its 50-bar SMA is 102 at index 49, 100 at index 50, and 100.02 at the last
index 54. -/
def smaW55 : List ℚ := (200 : ℚ) :: (List.replicate 53 100 ++ [101])

set_option maxRecDepth 8000 in
/-- C8 counterexample: the claim reads `is_rising` as "current 50-bar SMA
greater than its value 5 bars earlier".  On `smaW55` the code sets
`is_rising = True` (it compares with `iloc[-5]`, the SMA 4 bars earlier,
= 100), yet the SMA 5 bars earlier (index 49, = 102) is NOT below the
current SMA (= 100.02), so the claimed reading is false at this input. -/
theorem C8_counterexample :
    smaW55.length = 55 ∧
      smaIsRising smaW55 = true ∧
      smaCurrent smaW55 = some (5001 / 50) ∧
      (smaSeries smaW55).getD 49 none = some 102 ∧
      oLt ((smaSeries smaW55).getD 49 none) (smaCurrent smaW55) = false := by
  decide

/-- C8 (amended): `is_rising` is true exactly when the current 50-bar SMA
exceeds the 5th-from-last SMA entry (index `len - 5`, the value 4 bars
earlier); when the series has at most 5 bars the prior value is taken to be
the current value itself, so `is_rising` is false. -/
theorem C8_sma_rising_rule (closes : List ℚ) :
    (5 < closes.length →
      (smaIsRising closes = true ↔
        oLt ((smaSeries closes).getD (closes.length - 5) none) (smaCurrent closes) = true)) ∧
      (closes.length ≤ 5 → smaIsRising closes = false) := by
  constructor
  · intro h
    unfold smaIsRising smaPrev
    rw [smaSeries_length closes, if_pos h]
  · intro h
    unfold smaIsRising smaPrev
    rw [smaSeries_length closes, if_neg (by omega : ¬ 5 < closes.length)]
    exact oLt_self _

set_option maxRecDepth 8000 in
/-- C8 witness: the amended rule applied at `smaW55` (the code's comparison
index `len - 5` holds SMA 100, the current SMA is 100.02, so rising). -/
theorem C8_sma_rising_rule_witness : smaIsRising smaW55 = true :=
  ((C8_sma_rising_rule smaW55).1 (by decide)).mpr (by decide)

/-!
Projection Engine (`projection.py`, `calculate_projection`).  The embedding
is parametric over the values the source reads off the fetched frame — the
latest close, the last ATR(14) value and the last EMA(10)/EMA(50) values —
and over the whole-month horizon; every accepted series produces some such
values, so properties proved for all parameter values cover all series.
The free-text `basis` and the timestamp are omitted. -/
structure ProjectionResult where
  current_price : ℚ
  projected_low : ℚ
  projected_mid : ℚ
  projected_high : ℚ
  timeframe : String
  confidence : String
deriving DecidableEq

/-- `trend_multiplier` (`projection.py` lines 25-30): `1 + 0.02*months` when
`ema_10 > ema_50` (upward), else `1 - 0.01*months`. -/
def trendMultiplier (ema_10 ema_50 : ℚ) (months : ℕ) : ℚ :=
  if ema_10 > ema_50 then 1 + 2 / 100 * months else 1 - 1 / 100 * months

/-- `projected_mid = current_price * trend_multiplier` (line 33). -/
def projectedMid (price ema_10 ema_50 : ℚ) (months : ℕ) : ℚ :=
  price * trendMultiplier ema_10 ema_50 months

/-- `volatility_range = projected_mid * (atr_percent / 100) * months` with
`atr_percent = (atr / current_price) * 100` (lines 22 and 36). -/
def volatilityRange (price atr ema_10 ema_50 : ℚ) (months : ℕ) : ℚ :=
  projectedMid price ema_10 ema_50 months * (atr / price * 100 / 100) * months

/-- `calculate_projection` (`projection.py` lines 6-62). -/
def calculate_projection (price atr ema_10 ema_50 : ℚ) (months : ℕ) : ProjectionResult :=
  { current_price := round2 price
    projected_low :=
      round2 (projectedMid price ema_10 ema_50 months -
        volatilityRange price atr ema_10 ema_50 months)
    projected_mid := round2 (projectedMid price ema_10 ema_50 months)
    projected_high :=
      round2 (projectedMid price ema_10 ema_50 months +
        volatilityRange price atr ema_10 ema_50 months)
    timeframe := toString months ++ " months"
    confidence :=
      if |(ema_10 - ema_50) / ema_50| * 100 > 5 then "Moderate"
      else if |(ema_10 - ema_50) / ema_50| * 100 > 2 then "Low-Moderate"
      else "Low" }

lemma round2_mono {x y : ℚ} (h : x ≤ y) : round2 x ≤ round2 y := by
  unfold round2
  have hr : (round (x * 100) : ℤ) ≤ round (y * 100) := by
    rw [round_eq, round_eq]
    exact Int.floor_le_floor (by linarith)
  have hc : ((round (x * 100) : ℤ) : ℚ) ≤ ((round (y * 100) : ℤ) : ℚ) := by
    exact_mod_cast hr
  linarith

/-- C2: for every price/ATR/EMA configuration a series can produce and every
whole number of months ≥ 1, whenever the ATR-derived band
(`volatility_range`) is nonnegative, the projected range is ordered:
`low ≤ mid ≤ high`. -/
theorem C2_projection_range_ordered (price atr ema_10 ema_50 : ℚ) (months : ℕ)
    (_hm : 1 ≤ months)
    (h : 0 ≤ volatilityRange price atr ema_10 ema_50 months) :
    (calculate_projection price atr ema_10 ema_50 months).projected_low ≤
        (calculate_projection price atr ema_10 ema_50 months).projected_mid ∧
      (calculate_projection price atr ema_10 ema_50 months).projected_mid ≤
        (calculate_projection price atr ema_10 ema_50 months).projected_high := by
  constructor
  · exact round2_mono (by linarith)
  · exact round2_mono (by linarith)

/-- C2 witness: a 3-month upward projection from price 100, ATR 5,
EMA10 = 110 > EMA50 = 100 (multiplier 1.06, mid 106, band 15.9). -/
theorem C2_projection_range_ordered_witness :
    1 ≤ 3 ∧ 0 ≤ volatilityRange 100 5 110 100 3 ∧
      (calculate_projection 100 5 110 100 3).projected_low ≤
        (calculate_projection 100 5 110 100 3).projected_mid ∧
      (calculate_projection 100 5 110 100 3).projected_mid ≤
        (calculate_projection 100 5 110 100 3).projected_high :=
  ⟨by norm_num, by decide,
    C2_projection_range_ordered 100 5 110 100 3 (by norm_num) (by decide)⟩

/-!
Comparison endpoint (`projection.py`, `get_comparison_data`).  pandas float
division yields `NaN` for `0/0` and `±inf` for `x/0` rather than raising, so
the values flowing out of `calculate_return` are modelled by `PyFloat`. -/
inductive PyFloat where
  | num (q : ℚ)
  | nan
  | inf
  | ninf
deriving DecidableEq

/-- Float division of two reals, pandas-style: `0/0 = NaN`, `x/0 = ±inf`. -/
def pfDiv (a b : ℚ) : PyFloat :=
  if b = 0 then (if a = 0 then .nan else if 0 < a then .inf else .ninf)
  else .num (a / b)

/-- `x - 1` on the float model (NaN and ±inf absorb). -/
def pfSub1 : PyFloat → PyFloat
  | .num q => .num (q - 1)
  | x => x

/-- `x * 100` on the float model (NaN and ±inf absorb). -/
def pfMul100 : PyFloat → PyFloat
  | .num q => .num (q * 100)
  | x => x

/-- Python `x or 0` where `x` is `None` or a float: `None` and `0.0` are
falsy and give `0`; every other float — including NaN and ±inf — is truthy
and passes through. -/
def pfOrZero : Option PyFloat → PyFloat
  | none => .num 0
  | some (.num q) => if q = 0 then .num 0 else .num q
  | some x => x

/-- `round(x, 2)` on the float model (NaN and ±inf pass through). -/
def pfRound2 : PyFloat → PyFloat
  | .num q => .num (round2 q)
  | x => x

/-- `calculate_return(series, days)` (`projection.py` lines 103-106):
`None` when the series has fewer than `days` points, else
`((series.iloc[-1] / series.iloc[-days]) - 1) * 100`. -/
def calculate_return (series : List ℚ) (days : ℕ) : Option PyFloat :=
  if series.length < days then none
  else some (pfMul100 (pfSub1
    (pfDiv (series.getLast?.getD 0) (series.getD (series.length - days) 0))))

/-- The `returns` payload of `get_comparison_data`, flattened:
`d1/m1/m3/y1` are the "1d"/"1m"/"3m"/"1y" entries. -/
structure ComparisonReturns where
  d1_stock : PyFloat
  d1_nifty : PyFloat
  m1_stock : PyFloat
  m1_nifty : PyFloat
  m3_stock : PyFloat
  m3_nifty : PyFloat
  y1_stock : PyFloat
  y1_nifty : PyFloat
deriving DecidableEq

/-- `get_comparison_data` (`projection.py` lines 89-128): align the two
series on their common dates, then each entry is
`round(calculate_return(aligned, d) or 0, 2)` for d ∈ {1, 20, 60, 252}. -/
def get_comparison_data (stock nifty : List (ℕ × ℚ)) : ComparisonReturns :=
  { d1_stock := pfRound2 (pfOrZero
      (calculate_return (alignedCloses stock (commonDates stock nifty)) 1))
    d1_nifty := pfRound2 (pfOrZero
      (calculate_return (alignedCloses nifty (commonDates stock nifty)) 1))
    m1_stock := pfRound2 (pfOrZero
      (calculate_return (alignedCloses stock (commonDates stock nifty)) 20))
    m1_nifty := pfRound2 (pfOrZero
      (calculate_return (alignedCloses nifty (commonDates stock nifty)) 20))
    m3_stock := pfRound2 (pfOrZero
      (calculate_return (alignedCloses stock (commonDates stock nifty)) 60))
    m3_nifty := pfRound2 (pfOrZero
      (calculate_return (alignedCloses nifty (commonDates stock nifty)) 60))
    y1_stock := pfRound2 (pfOrZero
      (calculate_return (alignedCloses stock (commonDates stock nifty)) 252))
    y1_nifty := pfRound2 (pfOrZero
      (calculate_return (alignedCloses nifty (commonDates stock nifty)) 252)) }

/-- Two-point stock series whose last close is 0 (the data model allows
non-negative closes). -/
def cmpStockZ : List (ℕ × ℚ) := [(0, 1), (1, 0)]

/-- Benchmark for `cmpStockZ`. -/
def cmpNiftyZ : List (ℕ × ℚ) := [(0, 1), (1, 2)]

/-- C10 counterexample: on a non-empty aligned pair whose last stock close
is 0, the "1d" stock return is NaN (`0/0`), not 0 — so the 1-day returns are
not always 0. -/
theorem C10_counterexample :
    (alignedCloses cmpStockZ (commonDates cmpStockZ cmpNiftyZ)).length = 2 ∧
      (get_comparison_data cmpStockZ cmpNiftyZ).d1_stock = PyFloat.nan := by
  decide

lemma calculate_return_one (s : List ℚ) (hne : s ≠ []) (hz : s.getLast?.getD 0 ≠ 0) :
    calculate_return s 1 = some (PyFloat.num 0) := by
  have hlen : 0 < s.length := List.length_pos.mpr hne
  unfold calculate_return
  rw [if_neg (by omega : ¬ s.length < 1)]
  have hgetd : s.getD (s.length - 1) 0 = s.getLast?.getD 0 := by
    rw [List.getD_eq_getElem?_getD, List.getLast?_eq_getElem?]
  rw [hgetd]
  unfold pfDiv
  rw [if_neg hz, div_self hz]
  norm_num [pfSub1, pfMul100]

/-- C10 (amended): for every pair of aligned series with a non-empty date
intersection whose last aligned closes are nonzero, the "1d" returns are 0
for both the stock and the benchmark (the element `days=1` positions from
the end is the last element itself); when the last close is 0 the division
`0/0` yields NaN instead. -/
theorem C10_one_day_returns (stock nifty : List (ℕ × ℚ))
    (hc : commonDates stock nifty ≠ [])
    (hs : (alignedCloses stock (commonDates stock nifty)).getLast?.getD 0 ≠ 0)
    (hn : (alignedCloses nifty (commonDates stock nifty)).getLast?.getD 0 ≠ 0) :
    (get_comparison_data stock nifty).d1_stock = PyFloat.num 0 ∧
      (get_comparison_data stock nifty).d1_nifty = PyFloat.num 0 := by
  have hsne : alignedCloses stock (commonDates stock nifty) ≠ [] := by
    unfold alignedCloses
    intro hemp
    exact hc (List.map_eq_nil_iff.mp hemp)
  have hnne : alignedCloses nifty (commonDates stock nifty) ≠ [] := by
    unfold alignedCloses
    intro hemp
    exact hc (List.map_eq_nil_iff.mp hemp)
  unfold get_comparison_data
  rw [calculate_return_one _ hsne hs, calculate_return_one _ hnne hn]
  constructor <;> norm_num [pfOrZero, pfRound2, round2]

/-- C10 witness: a concrete aligned pair with nonzero last closes has both
"1d" returns equal to 0. -/
theorem C10_one_day_returns_witness :
    (get_comparison_data [(0, 2), (1, 4)] [(0, 1), (1, 1)]).d1_stock = PyFloat.num 0 ∧
      (get_comparison_data [(0, 2), (1, 4)] [(0, 1), (1, 1)]).d1_nifty = PyFloat.num 0 :=
  C10_one_day_returns [(0, 2), (1, 4)] [(0, 1), (1, 1)] (by decide) (by decide) (by decide)

/-!
Full indicator pipeline (`indicators.py` / `scoring.py`).  One OHLCV bar of
the data model; the engine never reads the open price, so it is omitted. -/
structure Bar where
  date : ℕ
  high : ℚ
  low : ℚ
  close : ℚ
  volume : ℚ
deriving DecidableEq

/-- Last value of pandas `ewm(adjust=False).mean()` over a gap-free series:
`y_0 = x_0`, `y_i = (1-a)·y_{i-1} + a·x_i`; `none` only for the empty
series. -/
def ewmLast (a : ℚ) : List ℚ → Option ℚ :=
  List.foldl
    (fun acc x =>
      match acc with
      | none => some x
      | some y => some ((1 - a) * y + a * x))
    none

/-- Last EMA(window) value (`EMAIndicator(close, window)` of ta:
`close.ewm(span=window, min_periods=window, adjust=False).mean()`); NaN
while the series is shorter than the window. -/
def emaLast (window : ℕ) (xs : List ℚ) : Option ℚ :=
  if xs.length < window then none else ewmLast (2 / ((window : ℚ) + 1)) xs

/-- The three EMA values of `calculate_ema` (`indicators.py` lines 7-13). -/
structure EMAOut where
  ema_10 : Option ℚ
  ema_20 : Option ℚ
  ema_50 : Option ℚ
deriving DecidableEq

/-- `calculate_ema` (`indicators.py` lines 7-13) at the default periods. -/
def calculate_ema (xs : List ℚ) : EMAOut :=
  { ema_10 := emaLast 10 xs, ema_20 := emaLast 20 xs, ema_50 := emaLast 50 xs }

/-- Full `ewm(adjust=False).mean()` series over a gap-free series. -/
def ewmSeries (a : ℚ) (xs : List ℚ) : List ℚ :=
  match xs with
  | [] => []
  | h :: t => t.scanl (fun acc x => (1 - a) * acc + a * x) h

/-- EMA(window) series with the min_periods NaN mask. -/
def emaSeries (window : ℕ) (xs : List ℚ) : List (Option ℚ) :=
  List.zipWith (fun i v => if window ≤ i + 1 then some v else none)
    (List.range xs.length) (ewmSeries (2 / ((window : ℚ) + 1)) xs)

/-- The MACD line series: EMA(12) − EMA(26), NaN where either side is. -/
def macdLineSeries (xs : List ℚ) : List (Option ℚ) :=
  List.zipWith
    (fun a b =>
      match a, b with
      | some x, some y => some (x - y)
      | _, _ => none)
    (emaSeries 12 xs) (emaSeries 26 xs)

/-- Last value of `ewm(adjust=False, min_periods=minp).mean()` over a series
whose NaN values all precede its observations (the only shape arising here:
warm-up NaNs of an indicator series): the recursion starts at the first
observation, and the result is NaN until `minp` observations were seen. -/
def ewmOptLast (a : ℚ) (minp : ℕ) (xs : List (Option ℚ)) : Option ℚ :=
  let st := xs.foldl
    (fun st x =>
      match x with
      | none => st
      | some v =>
        match st.1 with
        | none => (some v, st.2 + 1)
        | some acc => (some ((1 - a) * acc + a * v), st.2 + 1))
    ((none, 0) : Option ℚ × ℕ)
  if minp ≤ st.2 then st.1 else none

/-- MACD dict of `calculate_macd` (`indicators.py` lines 20-32). -/
structure MACDOut where
  macd : Option ℚ
  signal : Option ℚ
  histogram : Option ℚ
  is_bullish : Bool
deriving DecidableEq

/-- `calculate_macd` (`indicators.py` lines 20-32), per ta's MACD: fast
EMA(12), slow EMA(26), signal = EMA(9) of the macd line (min_periods counts
the line's non-NaN observations), histogram = line − signal.  The dict
stores the three values rounded to 2 decimals; `is_bullish` compares the
unrounded lines. -/
def calculate_macd (xs : List ℚ) : MACDOut :=
  { macd := ((macdLineSeries xs).getLast?.getD none).map round2
    signal := (ewmOptLast (1 / 5) 9 (macdLineSeries xs)).map round2
    histogram :=
      match (macdLineSeries xs).getLast?.getD none, ewmOptLast (1 / 5) 9 (macdLineSeries xs) with
      | some a, some b => some (round2 (a - b))
      | _, _ => none
    is_bullish := oLt (ewmOptLast (1 / 5) 9 (macdLineSeries xs))
      ((macdLineSeries xs).getLast?.getD none) }

/-- Close-to-close differences (`close.diff(1)` without its leading NaN). -/
def diffs (xs : List ℚ) : List ℚ :=
  List.zipWith (fun prev cur => cur - prev) xs (xs.drop 1)

/-- `calculate_rsi` (`indicators.py` lines 15-18), per ta's RSIIndicator:
gains and losses from `close.diff(1)`, smoothed with
`ewm(alpha=1/14, min_periods=14, adjust=False)`; RSI = 100 when the smoothed
loss is 0 (ta's explicit guard), else `100 - 100/(1 + gain/loss)`.  The last
value is NaN until 14 differences (15 bars) exist. -/
def calculate_rsi (xs : List ℚ) : Option ℚ :=
  if (diffs xs).length < 14 then none
  else
    match ewmLast (1 / 14) ((diffs xs).map fun d => if 0 < d then d else 0),
        ewmLast (1 / 14) ((diffs xs).map fun d => if d < 0 then -d else 0) with
    | some u, some d => some (if d = 0 then 100 else 100 - 100 / (1 + u / d))
    | _, _ => none

/-- True-range series per ta's AverageTrueRange: `tr_0 = high_0 - low_0`
(the shifted previous close is NaN there and the row-max skips it), and
`tr_i = max(high_i, close_{i-1}) - min(low_i, close_{i-1})`. -/
def trueRanges (df : List Bar) : List ℚ :=
  match df with
  | [] => []
  | b0 :: _ =>
    (b0.high - b0.low) ::
      List.zipWith (fun prev cur => max cur.high prev.close - min cur.low prev.close)
        df (df.drop 1)

/-- `calculate_atr` (`indicators.py` lines 39-42), per ta's
AverageTrueRange: seed = mean of the first 14 true ranges, then Wilder
smoothing `atr_i = (13·atr_{i-1} + tr_i)/14`.  On frames shorter than 14
bars the library raises an IndexError (it seeds `atr[window-1]` inside an
`np.zeros(len)` array) rather than producing NaN; the raise is modelled as
`none`, which `calculate_all_indicators` propagates as failure of the whole
call. -/
def calculate_atr (df : List Bar) : Option ℚ :=
  if df.length < 14 then none
  else some (((trueRanges df).drop 14).foldl (fun acc t => (acc * 13 + t) / 14)
    (((trueRanges df).take 14).sum / 14))

/-- The true ranges over the shifted close used inside ta's ADXIndicator
(its position 0 is NaN and dropped): positions 1..n-1. -/
def adxTR (df : List Bar) : List ℚ :=
  List.zipWith (fun prev cur => max cur.high prev.close - min cur.low prev.close)
    df (df.drop 1)

/-- Positive directional movements of ta's ADXIndicator
(`abs(((diup > didn) & (diup > 0)) * diup)`), positions 1..n-1. -/
def adxPos (df : List Bar) : List ℚ :=
  List.zipWith
    (fun prev cur =>
      if prev.low - cur.low < cur.high - prev.high ∧ 0 < cur.high - prev.high then
        |cur.high - prev.high|
      else 0)
    df (df.drop 1)

/-- Negative directional movements
(`abs(((didn > diup) & (didn > 0)) * didn)`), positions 1..n-1. -/
def adxNeg (df : List Bar) : List ℚ :=
  List.zipWith
    (fun prev cur =>
      if cur.high - prev.high < prev.low - cur.low ∧ 0 < prev.low - cur.low then
        |prev.low - cur.low|
      else 0)
    df (df.drop 1)

/-- Wilder running sums as in ta's ADXIndicator: seed = sum of the first 14
values, then `t_i = t_{i-1} - t_{i-1}/14 + x_{13+i}`. -/
def wilder14 (xs : List ℚ) : List ℚ :=
  if xs.length < 14 then []
  else (xs.drop 14).scanl (fun t x => t - t / 14 + x) (xs.take 14).sum

/-- DX series of ta's ADXIndicator:
`100·|DI+ − DI−|/(DI+ + DI−)` with `DI± = 100·(smoothed DM±)/(smoothed TR)`. -/
def adxDX (df : List Bar) : List ℚ :=
  List.zipWith
    (fun t pn => 100 * |100 * pn.1 / t - 100 * pn.2 / t| / (100 * pn.1 / t + 100 * pn.2 / t))
    (wilder14 (adxTR df)) (List.zip (wilder14 (adxPos df)) (wilder14 (adxNeg df)))

/-- `calculate_adx` (`indicators.py` lines 34-37), modelled from the
external ta library's ADXIndicator: the ADX seed (at DX position 14) is the
mean of the first 14 DX values, and later positions apply Wilder smoothing
`adx_i = (13·adx_{i-1} + dx_i)/14` starting from DX position 15 (ta skips
dx[14]).  On frames shorter than 28 bars the library raises rather than
producing NaN (`np.zeros(len-13)` rejects a negative size, `trs[0]` indexes
an empty array, and `adx_series[window]` is out of bounds while
`len-13 ≤ 14`); the raise is modelled as `none`, which
`calculate_all_indicators` propagates as failure of the whole call. -/
def calculate_adx (df : List Bar) : Option ℚ :=
  if df.length < 28 then none
  else some (((adxDX df).drop 15).foldl (fun acc d => (acc * 13 + d) / 14)
    (((adxDX df).take 14).sum / 14))

/-- Exact square root of a rational when it is rational (numerator and
denominator perfect squares); `none` otherwise. -/
def ratSqrt (q : ℚ) : Option ℚ :=
  if q < 0 then none
  else if q.num.toNat.sqrt * q.num.toNat.sqrt = q.num.toNat ∧ q.den.sqrt * q.den.sqrt = q.den
  then some ((q.num.toNat.sqrt : ℚ) / (q.den.sqrt : ℚ))
  else none

/-- Daily percentage returns (`close.pct_change()` without its leading
NaN). -/
def pctChanges (xs : List ℚ) : List ℚ :=
  List.zipWith (fun prev cur => cur / prev - 1) xs (xs.drop 1)

/-- `calculate_volatility` (`indicators.py` lines 44-48): sample standard
deviation (ddof=1) of the returns inside the trailing 20-bar window,
annualized by √252 and expressed in percent; NaN when the window holds
fewer than 2 returns.  Since `std·√252·100 = √(var·252·10000)` and both
factors are nonnegative, the model computes that square root.  Caveat: the
float value is generically irrational, and a rational-valued embedding can
carry it exactly only when it is rational — otherwise this definition yields
`none`, where the program holds a real float (so a rule-8 comparison the
program could win reads false here).  Every concrete series evaluated in
this development has exactly-rational volatility, and every universal
statement proved here holds for all volatility values, NaN included, so no
conclusion rests on the irrational case. -/
def calculate_volatility (xs : List ℚ) : Option ℚ :=
  let vals := (pctChanges xs).drop ((pctChanges xs).length - 20)
  if vals.length < 2 then none
  else
    ratSqrt (((vals.map fun x =>
        (x - vals.sum / vals.length) * (x - vals.sum / vals.length)).sum /
      ((vals.length - 1 : ℕ) : ℚ)) * 252 * 10000)

/-- `calculate_volume_ratio` (`indicators.py` lines 59-63): latest volume
over the mean volume of the trailing 20 bars, 1.0 when that mean is not
positive. -/
def calculate_volume_ratio20 (df : List Bar) : ℚ :=
  if 0 < ((df.map Bar.volume).drop ((df.map Bar.volume).length - 20)).sum /
      ((((df.map Bar.volume).drop ((df.map Bar.volume).length - 20)).length : ℕ) : ℚ) then
    ((df.map Bar.volume).getLast?.getD 0) /
      (((df.map Bar.volume).drop ((df.map Bar.volume).length - 20)).sum /
        ((((df.map Bar.volume).drop ((df.map Bar.volume).length - 20)).length : ℕ) : ℚ))
  else 1

/-- The indicator snapshot returned by `calculate_all_indicators`. -/
structure Indicators where
  emas : EMAOut
  rsi : Option ℚ
  macd : MACDOut
  adx : Option ℚ
  atr : Option ℚ
  volatility : Option ℚ
  sma_50 : SMAOut
  volRatio20 : ℚ
deriving DecidableEq

/-- `calculate_all_indicators` (`indicators.py` lines 65-76).  The Python
function performs no length check and catches nothing: on an empty frame
the first `iloc[-1]` raises, and ta's ADXIndicator / AverageTrueRange raise
on frames shorter than 28 / 14 bars (see `calculate_adx`,
`calculate_atr`); any of these uncaught exceptions aborts the whole call,
modelled as `none`.  On a frame of at least 28 bars the call succeeds and
returns a snapshot whose still-warming-up ewm/rolling components (e.g.
EMA-50 and SMA-50 under 50 bars) are NaN. -/
def calculate_all_indicators (df : List Bar) : Option Indicators :=
  if df = [] then none
  else
    match calculate_adx df, calculate_atr df with
    | some adxv, some atrv =>
      some
        { emas := calculate_ema (df.map Bar.close)
          rsi := calculate_rsi (df.map Bar.close)
          macd := calculate_macd (df.map Bar.close)
          adx := some adxv
          atr := some atrv
          volatility := calculate_volatility (df.map Bar.close)
          sma_50 := calculate_sma (df.map Bar.close)
          volRatio20 := calculate_volume_ratio20 df }
    | _, _ => none

/-- The body of the `calculate_strength_score` pipeline once a stock frame
exists (`scoring.py` lines 14-157). -/
def scoreFromFrames (df : List Bar) (niftyDf : Option (List Bar)) : Option ScoreResult :=
  match calculate_all_indicators df with
    | none => none
    | some ind =>
      let mkInputs : Option RSIn → ScoreInputs := fun rs =>
        { rs := rs
          ema_10 := ind.emas.ema_10
          ema_20 := ind.emas.ema_20
          ema_50 := ind.emas.ema_50
          rsi := ind.rsi
          macd_is_bullish := ind.macd.is_bullish
          macd_histogram := ind.macd.histogram
          adx := ind.adx
          volRatio20 := ind.volRatio20
          sma_is_rising := ind.sma_50.is_rising
          volatility := ind.volatility
          current_price := (df.map Bar.close).getLast?.getD 0
          current_volume := (df.map Bar.volume).getLast?.getD 0 }
      match niftyDf with
      | none => some (calculate_strength_score (mkInputs none))
      | some ndf =>
        (calculate_relative_strength (df.map fun b => (b.date, b.close))
            (ndf.map fun b => (b.date, b.close))).map
          fun r => calculate_strength_score (mkInputs (some ⟨r.is_new_high, r.trend⟩))

/-- The full `calculate_strength_score` pipeline (`scoring.py` lines 6-157):
`none` models both the `{"error": ...}` return (the stock fetch yielded no
frame) and a raised exception (empty frame, or an empty date intersection
inside the relative-strength call). -/
def calculate_strength_score_op (stockDf : Option (List Bar))
    (niftyDf : Option (List Bar)) : Option ScoreResult :=
  match stockDf with
  | none => none
  | some df => scoreFromFrames df niftyDf

lemma calculate_adx_isSome (df : List Bar) (h : 28 ≤ df.length) :
    (calculate_adx df).isSome = true := by
  unfold calculate_adx
  rw [if_neg (by omega : ¬ df.length < 28)]
  rfl

lemma calculate_atr_isSome (df : List Bar) (h : 14 ≤ df.length) :
    (calculate_atr df).isSome = true := by
  unfold calculate_atr
  rw [if_neg (by omega : ¬ df.length < 14)]
  rfl

lemma calculate_all_indicators_isSome (df : List Bar) (h : 28 ≤ df.length) :
    (calculate_all_indicators df).isSome = true := by
  have hne : ¬ df = [] := by
    intro he
    rw [he] at h
    simp at h
  unfold calculate_all_indicators
  rw [if_neg hne]
  cases hadx : calculate_adx df with
  | none =>
    have hs := calculate_adx_isSome df h
    rw [hadx] at hs
    cases hs
  | some adxv =>
    cases hatr : calculate_atr df with
    | none =>
      have hs := calculate_atr_isSome df (by omega)
      rw [hatr] at hs
      cases hs
    | some atrv =>
      rfl

lemma calculate_all_indicators_none (df : List Bar) (h : df.length < 28) :
    calculate_all_indicators df = none := by
  by_cases hne : df = []
  · unfold calculate_all_indicators
    rw [if_pos hne]
  · unfold calculate_all_indicators
    rw [if_neg hne]
    have hadx : calculate_adx df = none := by
      unfold calculate_adx
      rw [if_pos h]
    rw [hadx]

lemma scoreFromFrames_isSome (df : List Bar) (h : 28 ≤ df.length) :
    (scoreFromFrames df none).isSome = true := by
  cases hai : calculate_all_indicators df with
  | none =>
    have hs := calculate_all_indicators_isSome df h
    rw [hai] at hs
    cases hs
  | some ind =>
    unfold scoreFromFrames
    rw [hai]
    rfl

/-- A 30-bar frame with geometrically rising closes `100·1.1^i`, highs and
lows 1% around the close, constant volume: long enough for RSI/ADX/ATR but
shorter than the 50-bar EMA/SMA windows. -/
def barW30 : List Bar :=
  (List.range 30).map fun i =>
    { date := i
      high := 100 * (11 / 10 : ℚ) ^ i * (101 / 100)
      low := 100 * (11 / 10 : ℚ) ^ i * (99 / 100)
      close := 100 * (11 / 10 : ℚ) ^ i
      volume := 1000 }

/-- A single-bar frame: below the 14-bar ATR and 28-bar ADX minimums of the
ta library. -/
def barShort : List Bar := [{ date := 0, high := 101, low := 99, close := 100, volume := 1000 }]

set_option maxRecDepth 8000 in
/-- C3 counterexample: on a 30-bar series — shorter than the minimum the
claim names for EMA/SMA-50 — neither the indicator operation nor the
scoring operation fails: both return results (the unfilled windows are NaN
inside the snapshot, and scoring treats their comparisons as not firing). -/
theorem C3_counterexample :
    barW30.length = 30 ∧
      (calculate_all_indicators barW30).isSome = true ∧
      (calculate_strength_score_op (some barW30) none).isSome = true := by
  refine ⟨by decide, calculate_all_indicators_isSome barW30 (by decide), ?_⟩
  exact scoreFromFrames_isSome barW30 (by decide)

/-- C3 (amended): the operations contain no length checks, no exception
handling and no DataInsufficient condition.  Scoring returns its error
value only when the stock fetch yields no frame.  A series shorter than 28
bars does make the call fail — but through an uncaught IndexError/ValueError
raised inside the external ta library's ADX/ATR code (under 28 / under 14
bars), not through a DataInsufficient result.  And on every series of at
least 28 bars — including all series of 28-49 bars, still shorter than the
50-bar EMA/SMA windows the claim names — both operations succeed: the
snapshot carries NaN for its unfilled windows, and scoring (benchmark
absent here) returns a score in which NaN comparisons simply fail their
tiers. -/
theorem C3_no_length_guard (df : List Bar) :
    (28 ≤ df.length →
      (calculate_all_indicators df).isSome = true ∧
        (calculate_strength_score_op (some df) none).isSome = true) ∧
      (df.length < 28 →
        calculate_all_indicators df = none ∧
          calculate_strength_score_op (some df) none = none) ∧
      calculate_strength_score_op none none = none := by
  refine ⟨fun h => ⟨calculate_all_indicators_isSome df h, scoreFromFrames_isSome df h⟩,
    fun h => ⟨calculate_all_indicators_none df h, ?_⟩, rfl⟩
  show scoreFromFrames df none = none
  unfold scoreFromFrames
  rw [calculate_all_indicators_none df h]

set_option maxRecDepth 8000 in
/-- C3 witness: at the 30-bar frame both operations succeed; at a
single-bar frame the indicator call fails (ta's raise) and scoring
propagates the failure. -/
theorem C3_no_length_guard_witness :
    ((calculate_all_indicators barW30).isSome = true ∧
      (calculate_strength_score_op (some barW30) none).isSome = true) ∧
      calculate_all_indicators barShort = none ∧
        calculate_strength_score_op (some barShort) none = none :=
  ⟨(C3_no_length_guard barW30).1 (by decide), (C3_no_length_guard barShort).2.1 (by decide)⟩

/-- C1: for every input series and optional benchmark series on which the
scoring operation returns a result, the returned `strength_score` satisfies
`0 ≤ strength_score ≤ 100`. -/
theorem C1_strength_score_in_range (stockDf niftyDf : Option (List Bar))
    (r : ScoreResult) (h : calculate_strength_score_op stockDf niftyDf = some r) :
    0 ≤ r.strength_score ∧ r.strength_score ≤ 100 := by
  cases stockDf with
  | none => cases h
  | some df =>
    have h' : scoreFromFrames df niftyDf = some r := h
    unfold scoreFromFrames at h'
    cases hai : calculate_all_indicators df with
    | none => rw [hai] at h'; cases h'
    | some ind =>
      rw [hai] at h'
      cases niftyDf with
      | none =>
        have h'' : some (calculate_strength_score
            { rs := none
              ema_10 := ind.emas.ema_10
              ema_20 := ind.emas.ema_20
              ema_50 := ind.emas.ema_50
              rsi := ind.rsi
              macd_is_bullish := ind.macd.is_bullish
              macd_histogram := ind.macd.histogram
              adx := ind.adx
              volRatio20 := ind.volRatio20
              sma_is_rising := ind.sma_50.is_rising
              volatility := ind.volatility
              current_price := (df.map Bar.close).getLast?.getD 0
              current_volume := (df.map Bar.volume).getLast?.getD 0 }) = some r := h'
        injection h'' with h''
        rw [← h'']
        exact strength_score_in_range_inputs _
      | some ndf =>
        have h'' : ((calculate_relative_strength (df.map fun b => (b.date, b.close))
            (ndf.map fun b => (b.date, b.close))).map
              fun rr => calculate_strength_score
                { rs := some ⟨rr.is_new_high, rr.trend⟩
                  ema_10 := ind.emas.ema_10
                  ema_20 := ind.emas.ema_20
                  ema_50 := ind.emas.ema_50
                  rsi := ind.rsi
                  macd_is_bullish := ind.macd.is_bullish
                  macd_histogram := ind.macd.histogram
                  adx := ind.adx
                  volRatio20 := ind.volRatio20
                  sma_is_rising := ind.sma_50.is_rising
                  volatility := ind.volatility
                  current_price := (df.map Bar.close).getLast?.getD 0
                  current_volume := (df.map Bar.volume).getLast?.getD 0 }) = some r := h'
        rw [Option.map_eq_some'] at h''
        obtain ⟨rr, _, hfr⟩ := h''
        rw [← hfr]
        exact strength_score_in_range_inputs _

set_option maxRecDepth 8000 in
/-- C1 witness: the scoring operation applied to the concrete 30-bar frame
returns a result, and its score lies in `[0, 100]`. -/
theorem C1_strength_score_in_range_witness :
    0 ≤ ((calculate_strength_score_op (some barW30) none).getD default).strength_score ∧
      ((calculate_strength_score_op (some barW30) none).getD default).strength_score ≤ 100 := by
  have hs : (calculate_strength_score_op (some barW30) none).isSome = true :=
    scoreFromFrames_isSome barW30 (by decide)
  have h : calculate_strength_score_op (some barW30) none =
      some ((calculate_strength_score_op (some barW30) none).getD default) := by
    cases hopt : calculate_strength_score_op (some barW30) none with
    | none => rw [hopt] at hs; cases hs
    | some v => rfl
  exact C1_strength_score_in_range (some barW30) none _ h
